import Mathlib

/-!
# Shallow embedding of the mintaka process-supervision core

The repository contains iterative revisions of its core.  Two revisions are
embedded here, mirroring the files under `src/`:

* namespace `V1`: the monolithic `src/src/processes.rs` — supervisor
  (`Processes`), process state machine (`Process`, `ProcessInstanceState`),
  status type without `SuccessId`, dependency application
  (`handle_status_updates`), focus movement and the older snapshot.
* namespace `V2`: the split modules `src/src/processes/statuses.rs`,
  `src/src/processes/snapshots.rs`, `src/src/processes/instances.rs`,
  `src/src/process_statuses.rs` and `src/src/config.rs` — status type with
  `SuccessId`, the snapshot with four scroll directions, instance kill with
  SIGTERM/SIGKILL escalation, the line analyzer and the config presets.

Collaborators (the wezterm screen, PTY, regex engine, channels) are modelled
by explicit data or by function parameters standing for their observable
behaviour; machine integers that only ever carry values (exit codes, error
counts, PIDs) are `Nat`, and the one place where unsigned arithmetic can
underflow (`move_focus_up` on an empty process vector) is modelled by an
`Option` result.
-/

namespace Mintaka

/-- Model of the wezterm `Screen` collaborator: the full physical scrollback
`allLines` plus the number of visible (physical) rows.  Only the operations
the core calls are modelled. -/
structure Screen where
  allLines : List String
  physical_rows : Nat
deriving DecidableEq

/-- wezterm `Screen::phys_row(0)`: the physical index of the first visible
row, i.e. the scrollback base. -/
def Screen.phys_row0 (s : Screen) : Nat :=
  s.allLines.length - s.physical_rows

/-- wezterm `Screen::lines_in_phys_range(lo..hi)`: the slice of the physical
scrollback covering `[lo, hi)`. -/
def Screen.lines_in_phys_range (s : Screen) (lo hi : Nat) : List String :=
  (s.allLines.drop lo).take (hi - lo)

/-- `ScrollDirection` from the later revision's `scroll` module.  The file
itself is absent from `src/`; its four variants are exactly those matched in
`src/src/processes/snapshots.rs` and produced in `src/src/ui/controls.rs`. -/
inductive ScrollDirection
  | PageUp
  | PageDown
  | LineUp
  | LineDown
deriving DecidableEq

namespace V2

/-- `ProcessSnapshot` from `src/src/processes/snapshots.rs`. -/
structure ProcessSnapshot where
  line_index : Nat
  screen : Option Screen
deriving DecidableEq

/-- `ProcessSnapshot::empty`. -/
def ProcessSnapshot.empty : ProcessSnapshot :=
  { line_index := 0, screen := none }

/-- `ProcessSnapshot::new`. -/
def ProcessSnapshot.new (line_index : Nat) (screen : Screen) : ProcessSnapshot :=
  { line_index := line_index, screen := some screen }

/-- `ProcessSnapshot::lines`: the slice
`[line_index, line_index + physical_rows)` of the cloned screen. -/
def ProcessSnapshot.lines (s : ProcessSnapshot) : List String :=
  match s.screen with
  | some screen =>
      screen.lines_in_phys_range s.line_index (s.line_index + screen.physical_rows)
  | none => []

/-- `ProcessSnapshot::scroll_up`: `saturating_sub` on the line index. -/
def ProcessSnapshot.scroll_up (s : ProcessSnapshot) (lines : Nat) : ProcessSnapshot :=
  { s with line_index := s.line_index - lines }

/-- `ProcessSnapshot::scroll_down`: `saturating_add` clamped to
`screen.phys_row(0)`. -/
def ProcessSnapshot.scroll_down (s : ProcessSnapshot) (lines : Nat) : ProcessSnapshot :=
  match s.screen with
  | some screen => { s with line_index := min (s.line_index + lines) screen.phys_row0 }
  | none => s

/-- `ProcessSnapshot::scroll`: a page is half the physical rows; a line is
one row; no screen means no movement. -/
def ProcessSnapshot.scroll (s : ProcessSnapshot) (direction : ScrollDirection) :
    ProcessSnapshot :=
  match s.screen with
  | some screen =>
      match direction with
      | .PageUp => s.scroll_up (screen.physical_rows / 2)
      | .PageDown => s.scroll_down (screen.physical_rows / 2)
      | .LineUp => s.scroll_up 1
      | .LineDown => s.scroll_down 1
  | none => s

/-- `ProcessInstanceId` from `src/src/processes/instances.rs`: a counter
unique within one process. -/
structure ProcessInstanceId where
  id : Nat
deriving DecidableEq

/-- `ProcessInstanceId::new`. -/
def ProcessInstanceId.new : ProcessInstanceId := { id := 0 }

/-- `ProcessInstanceId::increment`: returns the value before the increment. -/
def ProcessInstanceId.increment (i : ProcessInstanceId) :
    ProcessInstanceId × ProcessInstanceId :=
  ({ id := i.id + 1 }, i)

/-- `SuccessId` from `src/src/processes/statuses.rs`: (instance id, index of
the success within the instance). -/
structure SuccessId where
  process_instance_id : ProcessInstanceId
  success_index : Nat
deriving DecidableEq

/-- `SuccessId::new`: the first success id of an instance. -/
def SuccessId.new (process_instance_id : ProcessInstanceId) : SuccessId :=
  { process_instance_id := process_instance_id, success_index := 0 }

/-- `SuccessId::increment`: returns the value before the increment. -/
def SuccessId.increment (s : SuccessId) : SuccessId × SuccessId :=
  ({ s with success_index := s.success_index + 1 }, s)

/-- `ProcessStatus` from `src/src/processes/statuses.rs`; `error_count` is a
`u64` and `exit_code` a `u32` in the source, carried but never computed with,
so both are `Nat` here. -/
inductive ProcessStatus
  | NotStarted
  | Stopped
  | WaitingForUpstream
  | FailedToStart
  | Running
  | Success (id : SuccessId)
  | Errors (error_count : Option Nat)
  | Exited (exit_code : Nat)
deriving DecidableEq

/-- `ProcessStatus::is_failure` (`src/src/processes/statuses.rs`). -/
def ProcessStatus.is_failure : ProcessStatus → Bool
  | .NotStarted => false
  | .Stopped => false
  | .WaitingForUpstream => false
  | .FailedToStart => true
  | .Running => false
  | .Success _ => false
  | .Errors _ => true
  | .Exited exit_code => exit_code != 0

/-- `ProcessStatus::is_success` (`src/src/processes/statuses.rs`). -/
def ProcessStatus.is_success : ProcessStatus → Bool
  | .NotStarted => false
  | .Stopped => false
  | .WaitingForUpstream => false
  | .FailedToStart => false
  | .Running => false
  | .Success _ => true
  | .Errors _ => false
  | .Exited exit_code => exit_code == 0

/-- `ProcessStatus::is_running` (`src/src/processes/statuses.rs`). -/
def ProcessStatus.is_running : ProcessStatus → Bool
  | .NotStarted => false
  | .Stopped => false
  | .WaitingForUpstream => false
  | .FailedToStart => false
  | .Running => true
  | .Success _ => true
  | .Errors _ => true
  | .Exited _ => false

/-- A POSIX signal sent by `kill_sigterm` / `kill_sigkill`
(`src/src/processes/instances.rs`, unix configuration). -/
inductive Signal
  | SIGTERM (process_id : Nat)
  | SIGKILL (process_id : Nat)
deriving DecidableEq

/-- The observable effect of `ProcessInstance::kill`: the signals sent
immediately, and the computation the 5-second timer thread runs at expiry —
given the value of the has-terminated flag at that moment, the signals it
then sends. -/
structure KillEffect where
  immediate : List Signal
  timer : Option (Bool → List Signal)

/-- `ProcessInstance` from `src/src/processes/instances.rs`.  The emulated
terminal is the shared screen; `has_terminated` is the value of the atomic
flag at the time of the call being modelled. -/
structure ProcessInstance where
  terminalScreen : Screen
  process_id : Nat
  has_terminated : Bool

/-- `ProcessInstance::kill` (unix): no-op when the has-terminated flag is
set; otherwise send SIGTERM and spawn a thread that sleeps 5 seconds and
sends SIGKILL unless the flag has been set by then. -/
def ProcessInstance.kill (i : ProcessInstance) : KillEffect :=
  if i.has_terminated then
    { immediate := [], timer := none }
  else
    { immediate := [.SIGTERM i.process_id],
      timer := some fun has_terminated_at_expiry =>
        if has_terminated_at_expiry then [] else [.SIGKILL i.process_id] }

/-- `ProcessInstance::snapshot`: deep copy of the screen, line index at the
current physical-row base. -/
def ProcessInstance.snapshot (i : ProcessInstance) : ProcessSnapshot :=
  ProcessSnapshot.new i.terminalScreen.phys_row0 i.terminalScreen

/-- Model of the `regex::Regex` collaborator: the pattern it was compiled
from, and its observable matching behaviour.  `captures line = none` means
the regex does not match `line`; `captures line = some g1` means it matches,
with `g1` the text of capture group 1 (`none` when the group is absent or
did not participate). -/
structure Regex where
  source : String
  captures : String → Option (Option String)

/-- `Regex::is_match`, expressed through `captures`. -/
def Regex.is_match (r : Regex) (line : String) : Bool :=
  (r.captures line).isSome

/-- `LineAnalysis` from `src/src/process_statuses.rs`. -/
inductive LineAnalysis
  | Running
  | Success
  | Errors (error_count : Option Nat)
deriving DecidableEq

/-- `ProcessStatusAnalyzer` from `src/src/process_statuses.rs`. -/
structure ProcessStatusAnalyzer where
  success_regex : Option Regex
  error_regex : Option Regex

/-- Rust `str::parse::<u64>`: an optional leading `+`, then one or more
ASCII digits, rejecting the empty digit string and values outside `u64`. -/
def parseU64 (s : String) : Option Nat :=
  let digits := if s.startsWith "+" then s.drop 1 else s
  if digits.length > 0 && digits.all Char.isDigit then
    let value := digits.foldl (fun acc c => acc * 10 + (c.toNat - 48)) 0
    if value < 2 ^ 64 then some value else none
  else
    none

/-- Model of the Rust collaborator call `last_line.trim().is_empty()`: true
iff every character of the line is whitespace (ASCII whitespace here; the
collaborator also trims the rarer Unicode whitespace). -/
def trimIsEmpty (s : String) : Bool :=
  s.data.all Char.isWhitespace

/-- `ProcessStatusAnalyzer::analyze_line` (`src/src/process_statuses.rs`):
no classification for a line that is empty after trimming; otherwise the
error regex (when configured and matching) classifies by capture group 1 —
`Success` when it parses to 0, `Errors` otherwise; otherwise a matching
success regex yields `Success`; otherwise `Running`. -/
def ProcessStatusAnalyzer.analyze_line (a : ProcessStatusAnalyzer)
    (last_line : String) : Option LineAnalysis :=
  if trimIsEmpty last_line then
    none
  else
    match a.error_regex.bind fun error_regex => error_regex.captures last_line with
    | some capture_1 =>
        let error_count := capture_1.bind parseU64
        if error_count == some 0 then
          some .Success
        else
          some (.Errors error_count)
    | none =>
        match a.success_regex with
        | some success_regex =>
            if success_regex.is_match last_line then some .Success else some .Running
        | none => some .Running

/-- `ProcessTypeConfig` from `src/src/config.rs`. -/
inductive ProcessTypeConfig
  | TscWatch
deriving DecidableEq

/-- The pattern of `TSC_WATCH_ERROR_REGEX` in `src/src/config.rs`. -/
def TSC_WATCH_ERROR_SOURCE : String :=
  " Found ([0-9]+) error[s]?\\. Watching for file changes\\."

/-- `TSC_WATCH_ERROR_REGEX` in `src/src/config.rs`; the regex engine's
matching behaviour for the pattern is the collaborator parameter `cap`. -/
def TSC_WATCH_ERROR_REGEX (cap : String → Option (Option String)) : Regex :=
  { source := TSC_WATCH_ERROR_SOURCE, captures := cap }

/-- `ProcessTypeConfig::success_regex`. -/
def ProcessTypeConfig.success_regex : ProcessTypeConfig → Option Regex
  | .TscWatch => none

/-- `ProcessTypeConfig::error_regex`; `cap` as in `TSC_WATCH_ERROR_REGEX`. -/
def ProcessTypeConfig.error_regex (cap : String → Option (Option String)) :
    ProcessTypeConfig → Option Regex
  | .TscWatch => some (TSC_WATCH_ERROR_REGEX cap)

/-- `ProcessConfig` from `src/src/config.rs` (the fields the core reads). -/
structure ProcessConfig where
  command : List String
  working_directory : Option String
  name : Option String
  process_type : Option ProcessTypeConfig
  after : Option String
  /-- The `autostart` field; renamed because the getter below keeps the
  source's method name. -/
  autostart_flag : Option Bool
  success_regex : Option String
  error_regex : Option String
deriving DecidableEq

/-- `ProcessConfig::process_status_analyzer` (`src/src/config.rs`).
`compile` stands for `Regex::new` (the collaborator compiler: pattern to
matching behaviour) and `cap` for the compiled behaviour of the tsc-watch
pattern. -/
def ProcessConfig.process_status_analyzer
    (compile : String → String → Option (Option String))
    (cap : String → Option (Option String)) (c : ProcessConfig) :
    ProcessStatusAnalyzer :=
  match c.process_type with
  | none =>
      { success_regex := c.success_regex.map fun s => { source := s, captures := compile s },
        error_regex := c.error_regex.map fun s => { source := s, captures := compile s } }
  | some process_type =>
      { success_regex := process_type.success_regex,
        error_regex := process_type.error_regex cap }

/-- `ProcessConfig::autostart` (`src/src/config.rs`): defaults to
"no upstream configured". -/
def ProcessConfig.autostart (c : ProcessConfig) : Bool :=
  match c.autostart_flag with
  | none => c.after.isNone
  | some autostart => autostart

end V2

/-- Replace the element at index `n` by `f` of it; out of range, the list is
unchanged.  (The source indexes `self.processes[i]` directly; every index
recorded in `after` is below the length of the process vector once the
corresponding `start_process` has completed, so the out-of-range branch is
never taken on states the supervisor builds.) -/
def updateAt {α : Type} : List α → Nat → (α → α) → List α
  | [], _, _ => []
  | a :: l, 0, f => f a :: l
  | a :: l, n + 1, f => a :: updateAt l n f

/-- `iter().enumerate().find(pred).map(index)` starting at index `i`. -/
def findIndexFrom {α : Type} (pred : α → Bool) : Nat → List α → Option Nat
  | _, [] => none
  | i, a :: l => if pred a then some i else findIndexFrom pred (i + 1) l

namespace V1

/-- `ScrollDirection` from `src/src/processes.rs` (earlier revision: only
up/down, both by half a page). -/
inductive ScrollDirection
  | Up
  | Down
deriving DecidableEq

/-- `MintakaMode` from `src/src/processes.rs`. -/
inductive MintakaMode
  | Main
  | ForwardInputToFocusedProcess
  | History
deriving DecidableEq

/-- `ProcessStatus` from `src/src/processes.rs` (earlier revision: `Success`
carries no id). -/
inductive ProcessStatus
  | NotStarted
  | Stopped
  | WaitingForUpstream
  | FailedToStart
  | Running
  | Success
  | Errors (error_count : Option Nat)
  | Exited (exit_code : Nat)
deriving DecidableEq

/-- `ProcessStatus::is_failure` (`src/src/processes.rs`). -/
def ProcessStatus.is_failure : ProcessStatus → Bool
  | .NotStarted => false
  | .Stopped => false
  | .WaitingForUpstream => false
  | .FailedToStart => true
  | .Running => false
  | .Success => false
  | .Errors _ => true
  | .Exited exit_code => exit_code != 0

/-- `ProcessStatus::is_success` (`src/src/processes.rs`). -/
def ProcessStatus.is_success : ProcessStatus → Bool
  | .NotStarted => false
  | .Stopped => false
  | .WaitingForUpstream => false
  | .FailedToStart => false
  | .Running => false
  | .Success => true
  | .Errors _ => false
  | .Exited exit_code => exit_code == 0

/-- `ProcessStatus::is_running` (`src/src/processes.rs`). -/
def ProcessStatus.is_running : ProcessStatus → Bool
  | .NotStarted => false
  | .Stopped => false
  | .WaitingForUpstream => false
  | .FailedToStart => false
  | .Running => true
  | .Success => true
  | .Errors _ => true
  | .Exited _ => false

/-- `ProcessError` from `src/src/processes.rs`; the payloads are collaborator
error values and are not modelled. -/
inductive ProcessError
  | SpawnCommandFailed
  | ProcessConfigMissingCommand
  | GetCurrentDirFailed
deriving DecidableEq

/-- `ProcessInstance` from `src/src/processes.rs`: the shared emulated
terminal screen.  The PTY master and the child killer handle are
collaborators; `ProcessInstance::kill` is best-effort and has no effect the
foreground observes, so the supervisor-level `Process::kill` below records
which instance was killed and dropped. -/
structure ProcessInstance where
  terminalScreen : Screen
deriving DecidableEq

/-- `ProcessInstance::lines`: the visible physical rows of the screen. -/
def ProcessInstance.lines (i : ProcessInstance) : List String :=
  i.terminalScreen.lines_in_phys_range i.terminalScreen.phys_row0
    i.terminalScreen.allLines.length

/-- `ProcessSnapshot` from `src/src/processes.rs` (earlier revision). -/
structure ProcessSnapshot where
  line_index : Nat
  screen : Option Screen
deriving DecidableEq

/-- `ProcessSnapshot::lines` (`src/src/processes.rs`). -/
def ProcessSnapshot.lines (s : ProcessSnapshot) : List String :=
  match s.screen with
  | some screen =>
      screen.lines_in_phys_range s.line_index (s.line_index + screen.physical_rows)
  | none => []

/-- `ProcessSnapshot::scroll` (`src/src/processes.rs`): half a page either
way, clamped to `[0, phys_row(0)]`. -/
def ProcessSnapshot.scroll (s : ProcessSnapshot) (direction : ScrollDirection) :
    ProcessSnapshot :=
  match s.screen with
  | some screen =>
      let scroll_distance := screen.physical_rows / 2
      match direction with
      | .Up => { s with line_index := s.line_index - scroll_distance }
      | .Down =>
          { s with line_index := min (s.line_index + scroll_distance) screen.phys_row0 }
  | none => s

/-- `ProcessInstance::snapshot` (`src/src/processes.rs`). -/
def ProcessInstance.snapshot (i : ProcessInstance) : ProcessSnapshot :=
  { line_index := i.terminalScreen.phys_row0, screen := some i.terminalScreen }

/-- `ProcessInstanceState` from `src/src/processes.rs` (earlier revision:
there is no `Terminating` variant).  The `status_rx` channel receiver held by
`Running` is a collaborator; the statuses it yields in a tick are passed to
`synchronize_status` as an argument. -/
inductive ProcessInstanceState
  | NotStarted
  | Stopped
  | WaitingForUpstream
  | PendingRestart
  | FailedToStart (error : ProcessError)
  | Running (inst : ProcessInstance) (status : ProcessStatus)
deriving DecidableEq

/-- `ProcessInstanceState::is_stopped`. -/
def ProcessInstanceState.is_stopped : ProcessInstanceState → Bool
  | .Stopped => true
  | _ => false

/-- `ProcessInstanceState::to_status` (`src/src/processes.rs`). -/
def ProcessInstanceState.to_status : ProcessInstanceState → ProcessStatus
  | .NotStarted => .NotStarted
  | .Stopped => .Stopped
  | .WaitingForUpstream => .WaitingForUpstream
  | .PendingRestart => .Running
  | .FailedToStart _ => .FailedToStart
  | .Running _ status => status

/-- `Process::instance` (`src/src/processes.rs`), renamed because `instance`
is reserved in Lean: the live instance, when the state holds one. -/
def ProcessInstanceState.currentInstance : ProcessInstanceState → Option ProcessInstance
  | .Running inst _ => some inst
  | _ => none

/-- `DownstreamAction` from `src/src/processes.rs`. -/
inductive DownstreamAction
  | Restart
  | WaitForUpstream
deriving DecidableEq

/-- `Process` from `src/src/processes.rs`.  The PTY system, PTY size and
waker are collaborator handles and are not modelled. -/
structure Process where
  name : String
  process_config : V2.ProcessConfig
  instance_state : ProcessInstanceState
deriving DecidableEq

/-- `Process::new`: display name defaults to the command joined by spaces;
initial state `PendingRestart` iff `autostart`. -/
def Process.new (process_config : V2.ProcessConfig) : Process :=
  { name := process_config.name.getD (String.intercalate " " process_config.command),
    process_config := process_config,
    instance_state :=
      if process_config.autostart then ProcessInstanceState.PendingRestart
      else ProcessInstanceState.NotStarted }

/-- `Process::start`: the spawn outcome of `ProcessInstance::start` is the
environment's input; success yields `Running` with status `Running`, failure
yields `FailedToStart`. -/
def Process.start (p : Process) (spawn : Except ProcessError ProcessInstance) : Process :=
  { p with
    instance_state :=
      match spawn with
      | .ok inst => ProcessInstanceState.Running inst ProcessStatus.Running
      | .error error => ProcessInstanceState.FailedToStart error }

/-- `Process::kill` (`src/src/processes.rs`): replace the state by
`new_process_instance_state` and, when the previous state held a live
instance, kill and drop it.  The second component records the instance that
was discarded synchronously (`none` when there was none). -/
def Process.kill (p : Process) (new_process_instance_state : ProcessInstanceState) :
    Process × Option ProcessInstance :=
  let previous_instance_state := p.instance_state
  ({ p with instance_state := new_process_instance_state },
   previous_instance_state.currentInstance)

/-- `Process::stop`. -/
def Process.stop (p : Process) : Process × Option ProcessInstance :=
  p.kill ProcessInstanceState.Stopped

/-- `Process::restart`. -/
def Process.restart (p : Process) : Process × Option ProcessInstance :=
  p.kill ProcessInstanceState.PendingRestart

/-- `Process::mark_waiting_for_upstream`. -/
def Process.mark_waiting_for_upstream (p : Process) : Process × Option ProcessInstance :=
  p.kill ProcessInstanceState.WaitingForUpstream

/-- `Process::synchronize_status` (`src/src/processes.rs`): drain the status
channel (`drained` is what `try_iter` yielded this tick), keep only the last
received status, and emit a downstream action whenever a status was
received — `Restart` when the new status `is_success`, else
`WaitForUpstream`. -/
def Process.synchronize_status (p : Process) (drained : List ProcessStatus) :
    Process × Option DownstreamAction :=
  match p.instance_state with
  | .Running inst _status =>
      match drained.getLast? with
      | some new_status =>
          ({ p with instance_state := ProcessInstanceState.Running inst new_status },
           some (if new_status.is_success then DownstreamAction.Restart
                 else DownstreamAction.WaitForUpstream))
      | none => (p, none)
  | _ => (p, none)

/-- `Process::do_work`: start iff the state is `PendingRestart`. -/
def Process.do_work (p : Process) (spawn : Except ProcessError ProcessInstance) : Process :=
  match p.instance_state with
  | .PendingRestart => p.start spawn
  | _ => p

/-- `Process::status`. -/
def Process.status (p : Process) : ProcessStatus :=
  p.instance_state.to_status

/-- `Process::lines`. -/
def Process.lines (p : Process) : List String :=
  match p.instance_state with
  | .Running inst _ => inst.lines
  | _ => []

/-- `Process::send_input`: the key is forwarded to the live instance when one
exists; the returned value is that instance. -/
def Process.send_input (p : Process) : Option ProcessInstance :=
  p.instance_state.currentInstance

/-- `Process::snapshot`. -/
def Process.snapshot (p : Process) : ProcessSnapshot :=
  match p.instance_state.currentInstance with
  | some inst => inst.snapshot
  | none => { line_index := 0, screen := none }

/-- `Processes` from `src/src/processes.rs`: the supervisor.  The PTY system,
PTY size and waker are collaborator handles; `after` embeds the
`MultiMap<String, DownstreamProcess>` as an association list in insertion
order. -/
structure Processes where
  autofocus_enabled : Bool
  mode : MintakaMode
  snapshot : Option ProcessSnapshot
  processes : List Process
  focused_process_index : Nat
  after : List (String × Nat)
deriving DecidableEq

/-- `Processes::new`. -/
def Processes.new : Processes :=
  { autofocus_enabled := true,
    mode := MintakaMode.Main,
    snapshot := none,
    processes := [],
    focused_process_index := 0,
    after := [] }

/-- `Processes::disable_autofocus`. -/
def Processes.disable_autofocus (ps : Processes) : Processes :=
  { ps with autofocus_enabled := false }

/-- `Processes::toggle_autofocus`. -/
def Processes.toggle_autofocus (ps : Processes) : Processes :=
  { ps with autofocus_enabled := !ps.autofocus_enabled }

/-- `Processes::forward_input_to_focused_process`. -/
def Processes.forward_input_to_focused_process (ps : Processes) : Processes :=
  { ps with mode := MintakaMode.ForwardInputToFocusedProcess }

/-- `Processes::enter_main_mode`. -/
def Processes.enter_main_mode (ps : Processes) : Processes :=
  { ps with mode := MintakaMode.Main }

/-- `Processes::leave_history`. -/
def Processes.leave_history (ps : Processes) : Processes :=
  { ps with mode := MintakaMode.Main, snapshot := none }

/-- `Processes::should_autofocus`. -/
def Processes.should_autofocus (ps : Processes) : Bool :=
  match ps.mode with
  | .Main => ps.autofocus_enabled
  | .ForwardInputToFocusedProcess => false
  | .History => false

/-- `Processes::scroll` (`src/src/processes.rs`): enter History, capture a
snapshot of the focused process if none is held, and scroll it.  Capturing
indexes `processes[focused_process_index]`, which panics when out of bounds;
that case is `none`. -/
def Processes.scroll (ps : Processes) (direction : ScrollDirection) : Option Processes :=
  let ps := { ps with mode := MintakaMode.History }
  match ps.snapshot with
  | none =>
      (ps.processes.get? ps.focused_process_index).map fun p =>
        { ps with snapshot := some (p.snapshot.scroll direction) }
  | some snapshot => some { ps with snapshot := some (snapshot.scroll direction) }

/-- `Processes::start_process`: record the `after` edge (downstream index =
current length), create the process, run its `do_work` (which spawns iff
`autostart`), and push it.  (`Process::do_work` always returns `Ok`.) -/
def Processes.start_process (ps : Processes) (process_config : V2.ProcessConfig)
    (spawn : Except ProcessError ProcessInstance) : Processes :=
  let after :=
    match process_config.after with
    | some after => ps.after ++ [(after, ps.processes.length)]
    | none => ps.after
  let process := (Process.new process_config).do_work spawn
  { ps with after := after, processes := ps.processes ++ [process] }

/-- `Processes::stop_all`. -/
def Processes.stop_all (ps : Processes) : Processes :=
  { ps with processes := ps.processes.map fun p => (p.stop).1 }

/-- Phase one of `Processes::handle_status_updates`: synchronize every
process (`drains i` is what process `i`'s channel yielded this tick) and
collect the `(upstream name, action)` pairs, in process order. -/
def synchronize_all (processes : List Process) (drains : Nat → List ProcessStatus) :
    List Process × List (String × DownstreamAction) :=
  let pairs := processes.enum.map fun ip => (ip.2).synchronize_status (drains ip.1)
  (pairs.map Prod.fst,
   pairs.filterMap fun pa => (pa.2).map fun action => ((pa.1).name, action))

/-- Applying one `DownstreamAction` to one downstream process. -/
def applyDownstreamAction (action : DownstreamAction) (p : Process) : Process :=
  match action with
  | .Restart => (p.restart).1
  | .WaitForUpstream => (p.mark_waiting_for_upstream).1

/-- `MultiMap::get_vec`: the downstream indices recorded for an upstream
name, in insertion order (empty when the name is unknown, matching the
skipped `if let Some` in the source). -/
def getDownstream (after : List (String × Nat)) (name : String) : List Nat :=
  (after.filter fun entry => entry.1 == name).map Prod.snd

/-- Phase two of `Processes::handle_status_updates`: apply each collected
action to every downstream of its upstream name, in order. -/
def applyActions (after : List (String × Nat))
    (downstream_actions : List (String × DownstreamAction))
    (processes : List Process) : List Process :=
  downstream_actions.foldl
    (fun procs na =>
      (getDownstream after na.1).foldl
        (fun procs idx => updateAt procs idx (applyDownstreamAction na.2)) procs)
    processes

/-- `Processes::handle_status_updates` (`src/src/processes.rs`). -/
def Processes.handle_status_updates (ps : Processes)
    (drains : Nat → List ProcessStatus) : Processes :=
  let sync := synchronize_all ps.processes drains
  { ps with processes := applyActions ps.after sync.2 sync.1 }

/-- The first two phases of `Processes::do_work` (`src/src/processes.rs`):
handle status updates, then run every process's `do_work` (`spawns i` is the
spawn outcome for process `i`). -/
def Processes.work_phase (ps : Processes) (drains : Nat → List ProcessStatus)
    (spawns : Nat → Except ProcessError ProcessInstance) : Processes :=
  let ps := ps.handle_status_updates drains
  { ps with
    processes :=
      ps.processes.enum.map fun (ip : Nat × Process) => Process.do_work ip.2 (spawns ip.1) }

/-- `Processes::do_work` (`src/src/processes.rs`): the two phases above,
then, when autofocus applies, move focus to the first process whose status
`is_failure`, keeping the current focus when none is failing. -/
def Processes.do_work (ps : Processes) (drains : Nat → List ProcessStatus)
    (spawns : Nat → Except ProcessError ProcessInstance) : Processes :=
  let ps := ps.work_phase drains spawns
  if ps.should_autofocus then
    { ps with
      focused_process_index :=
        (findIndexFrom (fun (p : Process) => p.status.is_failure) 0 ps.processes).getD
          ps.focused_process_index }
  else
    ps

/-- `Processes::lines` (`src/src/processes.rs`): the held snapshot's lines,
else the focused process's lines.  Indexing `processes[focused]` panics when
out of bounds; that case is `none`. -/
def Processes.lines (ps : Processes) : Option (List String) :=
  match ps.snapshot with
  | some snapshot => some snapshot.lines
  | none => (ps.processes.get? ps.focused_process_index).map Process.lines

/-- `Processes::move_focus_up` (`src/src/processes.rs`): from a positive
index, decrement; from index 0 the source computes `processes.len() - 1`,
which underflows `usize` when the vector is empty — that case is `none`. -/
def Processes.move_focus_up (ps : Processes) : Option Processes :=
  if ps.focused_process_index > 0 then
    some { ps with focused_process_index := ps.focused_process_index - 1 }
  else
    match ps.processes.length with
    | 0 => none
    | n + 1 => some { ps with focused_process_index := n }

/-- `Processes::move_focus_down` (`src/src/processes.rs`): total — wraps to
0 whenever `focused + 1 < len` fails, including on an empty vector. -/
def Processes.move_focus_down (ps : Processes) : Processes :=
  if ps.focused_process_index + 1 < ps.processes.length then
    { ps with focused_process_index := ps.focused_process_index + 1 }
  else
    { ps with focused_process_index := 0 }

/-- `Processes::restart_focused` (`src/src/processes.rs`): restart the
focused process; indexing `processes[focused]` panics when out of bounds —
that case is `none`. -/
def Processes.restart_focused (ps : Processes) : Option Processes :=
  (ps.processes.get? ps.focused_process_index).map fun _ =>
    { ps with
      processes := updateAt ps.processes ps.focused_process_index fun p => (p.restart).1 }

/-- `Processes::send_input` (`src/src/processes.rs`): forward a key to the
focused process; indexing panics when out of bounds — that case is `none`.
The inner option is the instance the key reaches. -/
def Processes.send_input (ps : Processes) : Option (Option ProcessInstance) :=
  (ps.processes.get? ps.focused_process_index).map Process.send_input

end V1

end Mintaka

open Mintaka

/-- A concrete configuration for an upstream process named `build`. -/
def buildConfig : V2.ProcessConfig :=
  ⟨["build"], none, some "build", none, none, none, none, none⟩

/-- A concrete configuration for a downstream process named `serve`, declared
`after = "build"`. -/
def serveConfig : V2.ProcessConfig :=
  ⟨["serve"], none, some "serve", none, some "build", none, none, none⟩

/-- A concrete live instance (empty screen). -/
def instance0 : V1.ProcessInstance := ⟨⟨[], 0⟩⟩

/-- A concrete process `build` with a live instance whose synchronized status
is `Running`. -/
def runningProcess : V1.Process :=
  ⟨"build", buildConfig, V1.ProcessInstanceState.Running instance0
    V1.ProcessStatus.Running⟩

/-- A concrete process `serve` in the `Stopped` state. -/
def stoppedProcess : V1.Process :=
  ⟨"serve", serveConfig, V1.ProcessInstanceState.Stopped⟩

/-- A concrete supervisor: `build` running, `serve` stopped, with the
dependency edge `serve after build`. -/
def pairSupervisor : V1.Processes :=
  ⟨true, V1.MintakaMode.Main, none, [runningProcess, stoppedProcess], 0,
   [("build", 1)]⟩

/-- A concrete supervisor holding only the running `build` process. -/
def singletonSupervisor : V1.Processes :=
  ⟨true, V1.MintakaMode.Main, none, [runningProcess], 0, []⟩

/-- A tick in which only process 0's status channel yields anything: a single
`Success`. -/
def successDrain : Nat → List V1.ProcessStatus :=
  fun i => if i == 0 then [V1.ProcessStatus.Success] else []

/-- A tick in which no status channel yields anything. -/
def emptyDrain : Nat → List V1.ProcessStatus := fun _ => []

/-- Spawn outcomes in which every spawn succeeds with `instance0`. -/
def okSpawn : Nat → Except V1.ProcessError V1.ProcessInstance :=
  fun _ => Except.ok instance0

/-- C6: for every snapshot, the line index is initialized to the screen's
physical-row base; each scroll adjusts it by half the physical rows for
PageUp/PageDown and by one for LineUp/LineDown (clamped), after every scroll
it remains within `[0, base]`, and the lines returned cover exactly
`[line_index, line_index + physical_rows)`. -/
theorem snapshot_line_index_bounds :
    (∀ i : V2.ProcessInstance,
       (V2.ProcessInstance.snapshot i).line_index = i.terminalScreen.phys_row0 ∧
       (V2.ProcessInstance.snapshot i).screen = some i.terminalScreen) ∧
    (∀ (s : V2.ProcessSnapshot) (screen : Screen) (d : ScrollDirection),
       s.screen = some screen →
       (V2.ProcessSnapshot.scroll s d).screen = some screen ∧
       (V2.ProcessSnapshot.scroll s d).line_index =
         (match d with
          | .PageUp => s.line_index - screen.physical_rows / 2
          | .PageDown => min (s.line_index + screen.physical_rows / 2) screen.phys_row0
          | .LineUp => s.line_index - 1
          | .LineDown => min (s.line_index + 1) screen.phys_row0) ∧
       (s.line_index ≤ screen.phys_row0 →
         (V2.ProcessSnapshot.scroll s d).line_index ≤ screen.phys_row0)) ∧
    (∀ (s : V2.ProcessSnapshot) (screen : Screen),
       s.screen = some screen →
       (V2.ProcessSnapshot.lines s).length =
         min screen.physical_rows (screen.allLines.length - s.line_index) ∧
       (∀ k : Nat, k < screen.physical_rows →
         (V2.ProcessSnapshot.lines s)[k]? = screen.allLines[s.line_index + k]?) ∧
       (∀ k : Nat, screen.physical_rows ≤ k →
         (V2.ProcessSnapshot.lines s)[k]? = none)) := by
  refine ⟨fun i => ⟨rfl, rfl⟩, ?_, ?_⟩
  · rintro ⟨idx, scr⟩ screen d h
    simp only [V2.ProcessSnapshot.screen] at h
    subst h
    cases d <;>
      simp only [V2.ProcessSnapshot.scroll, V2.ProcessSnapshot.scroll_up,
        V2.ProcessSnapshot.scroll_down, V2.ProcessSnapshot.line_index,
        V2.ProcessSnapshot.screen] <;>
      refine ⟨trivial, trivial, fun hle => ?_⟩ <;> omega
  · rintro ⟨idx, scr⟩ screen h
    simp only [V2.ProcessSnapshot.screen] at h
    subst h
    simp only [V2.ProcessSnapshot.lines, Screen.lines_in_phys_range,
      V2.ProcessSnapshot.line_index, V2.ProcessSnapshot.screen]
    have hspan : idx + screen.physical_rows - idx = screen.physical_rows := by omega
    rw [hspan]
    refine ⟨?_, fun k hk => ?_, fun k hk => ?_⟩
    · rw [List.length_take, List.length_drop]
    · rw [List.getElem?_take_of_lt hk, List.getElem?_drop]
    · exact List.getElem?_take_eq_none hk

/-- Witness for `snapshot_line_index_bounds` at a concrete snapshot: a
three-line scrollback with two visible rows, scrolled down one page from
index 1, stays within the base. -/
theorem snapshot_line_index_bounds_witness :
    (⟨["a", "b", "c"], 2⟩ : Screen) = (⟨["a", "b", "c"], 2⟩ : Screen) ∧
    (V2.ProcessSnapshot.scroll ⟨1, some ⟨["a", "b", "c"], 2⟩⟩
        ScrollDirection.PageDown).line_index ≤
      (⟨["a", "b", "c"], 2⟩ : Screen).phys_row0 :=
  ⟨rfl,
   (snapshot_line_index_bounds.2.1 ⟨1, some ⟨["a", "b", "c"], 2⟩⟩
       ⟨["a", "b", "c"], 2⟩ ScrollDirection.PageDown rfl).2.2 (by decide)⟩

/-- C7: `kill()` on an instance whose has-terminated flag is set is a no-op;
on a non-terminated instance it sends SIGTERM and schedules the 5-second
timer, and at the timer's expiry either the has-terminated flag is set (the
instance terminated within the 5 seconds) or SIGKILL is issued to the same
process id. -/
theorem kill_sigterm_then_sigkill (i : V2.ProcessInstance) :
    (i.has_terminated = true →
      V2.ProcessInstance.kill i = { immediate := [], timer := none }) ∧
    (i.has_terminated = false →
      (V2.ProcessInstance.kill i).immediate = [V2.Signal.SIGTERM i.process_id] ∧
      ∃ t, (V2.ProcessInstance.kill i).timer = some t ∧
        ∀ has_terminated_at_expiry : Bool,
          has_terminated_at_expiry = true ∨
            V2.Signal.SIGKILL i.process_id ∈ t has_terminated_at_expiry) := by
  unfold V2.ProcessInstance.kill
  constructor
  · intro h
    simp [h]
  · intro h
    simp only [h, Bool.false_eq_true, if_false]
    refine ⟨trivial, _, rfl, fun b => ?_⟩
    cases b
    · exact Or.inr (by simp)
    · exact Or.inl rfl

/-- Witness for `kill_sigterm_then_sigkill`: a concrete non-terminated
instance with pid 7 receives SIGTERM and has a pending SIGKILL timer. -/
theorem kill_sigterm_then_sigkill_witness :
    (⟨⟨[], 0⟩, 7, false⟩ : V2.ProcessInstance).has_terminated = false ∧
    ((V2.ProcessInstance.kill ⟨⟨[], 0⟩, 7, false⟩).immediate =
        [V2.Signal.SIGTERM 7] ∧
      ∃ t, (V2.ProcessInstance.kill ⟨⟨[], 0⟩, 7, false⟩).timer = some t ∧
        ∀ has_terminated_at_expiry : Bool,
          has_terminated_at_expiry = true ∨
            V2.Signal.SIGKILL 7 ∈ t has_terminated_at_expiry) :=
  ⟨rfl, (kill_sigterm_then_sigkill ⟨⟨[], 0⟩, 7, false⟩).2 rfl⟩

/-- C3: for every input line, the analyzer returns no classification when the
line is empty after trimming; otherwise, when an error regex is configured
and matches, `Success` when capture group 1 parses to 0 and `Errors` with the
parsed count otherwise (`none` when the capture is missing or fails to
parse); otherwise `Success` when a configured success regex matches;
otherwise `Running`. -/
theorem analyze_line_contract (a : V2.ProcessStatusAnalyzer) (line : String) :
    (V2.trimIsEmpty line = true →
      a.analyze_line line = none) ∧
    (V2.trimIsEmpty line = false →
      (∀ er g1, a.error_regex = some er → er.captures line = some g1 →
        a.analyze_line line =
          some (if g1.bind V2.parseU64 == some 0 then V2.LineAnalysis.Success
                else V2.LineAnalysis.Errors (g1.bind V2.parseU64))) ∧
      ((a.error_regex = none ∨ ∃ er, a.error_regex = some er ∧ er.captures line = none) →
        (∀ sr, a.success_regex = some sr → sr.is_match line = true →
          a.analyze_line line = some V2.LineAnalysis.Success) ∧
        (∀ sr, a.success_regex = some sr → sr.is_match line = false →
          a.analyze_line line = some V2.LineAnalysis.Running) ∧
        (a.success_regex = none →
          a.analyze_line line = some V2.LineAnalysis.Running))) := by
  constructor
  · intro h
    unfold V2.ProcessStatusAnalyzer.analyze_line
    simp [h]
  · intro h
    constructor
    · intro er g1 her hcap
      unfold V2.ProcessStatusAnalyzer.analyze_line
      simp only [h, Bool.false_eq_true, if_false, her, Option.some_bind, hcap]
      cases h0 : g1.bind V2.parseU64 == some 0 <;> simp [h0]
    · intro hnone
      have hb : a.error_regex.bind (fun er => er.captures line) = none := by
        rcases hnone with h1 | ⟨er, her, hcap⟩
        · simp [h1]
        · simp [her, hcap]
      refine ⟨?_, ?_, ?_⟩
      · intro sr hsr hm
        unfold V2.ProcessStatusAnalyzer.analyze_line
        simp [h, hb, hsr, hm]
      · intro sr hsr hm
        unfold V2.ProcessStatusAnalyzer.analyze_line
        simp [h, hb, hsr, hm]
      · intro hsr
        unfold V2.ProcessStatusAnalyzer.analyze_line
        simp [h, hb, hsr]

/-- Witness for `analyze_line_contract`: with no regexes configured, a blank
line yields no classification and a non-blank line yields `Running`. -/
theorem analyze_line_contract_witness :
    V2.trimIsEmpty "  " = true ∧
    V2.ProcessStatusAnalyzer.analyze_line ⟨none, none⟩ "  " = none ∧
    V2.trimIsEmpty "hello" = false ∧
    V2.ProcessStatusAnalyzer.analyze_line ⟨none, none⟩ "hello" =
      some V2.LineAnalysis.Running :=
  ⟨by decide, (analyze_line_contract ⟨none, none⟩ "  ").1 (by decide), by decide,
   (((analyze_line_contract ⟨none, none⟩ "hello").2 (by decide)).2 (Or.inl rfl)).2.2 rfl⟩

/-- C9: the `tsc-watch` preset yields an analyzer whose error regex is
exactly `" Found ([0-9]+) error[s]?\. Watching for file changes\."` with no
success regex; with neither a preset nor explicit regexes configured, both
regexes are absent and every non-empty (after trim) line is classified
`Running`. -/
theorem tsc_watch_preset_and_default
    (compile : String → String → Option (Option String))
    (cap : String → Option (Option String)) :
    (∀ c : V2.ProcessConfig, c.process_type = some V2.ProcessTypeConfig.TscWatch →
      (V2.ProcessConfig.process_status_analyzer compile cap c).error_regex =
        some (V2.TSC_WATCH_ERROR_REGEX cap) ∧
      (V2.TSC_WATCH_ERROR_REGEX cap).source =
        " Found ([0-9]+) error[s]?\\. Watching for file changes\\." ∧
      (V2.ProcessConfig.process_status_analyzer compile cap c).success_regex = none) ∧
    (∀ c : V2.ProcessConfig, c.process_type = none → c.success_regex = none →
      c.error_regex = none →
      (V2.ProcessConfig.process_status_analyzer compile cap c).success_regex = none ∧
      (V2.ProcessConfig.process_status_analyzer compile cap c).error_regex = none ∧
      ∀ line, V2.trimIsEmpty line = false →
        (V2.ProcessConfig.process_status_analyzer compile cap c).analyze_line line =
          some V2.LineAnalysis.Running) := by
  constructor
  · intro c htype
    unfold V2.ProcessConfig.process_status_analyzer
    rw [htype]
    exact ⟨rfl, rfl, rfl⟩
  · intro c htype hsucc herr
    unfold V2.ProcessConfig.process_status_analyzer
    rw [htype]
    refine ⟨by simp [hsucc], by simp [herr], fun line hline => ?_⟩
    unfold V2.ProcessStatusAnalyzer.analyze_line
    simp [hline, hsucc, herr]

/-- Witness for `tsc_watch_preset_and_default` at concrete configurations:
one with the `tsc-watch` preset, one with no preset and no regexes. -/
theorem tsc_watch_preset_and_default_witness :
    ((⟨["tsc", "--watch"], none, none, some V2.ProcessTypeConfig.TscWatch, none,
        none, none, none⟩ : V2.ProcessConfig).process_type =
      some V2.ProcessTypeConfig.TscWatch ∧
      (V2.ProcessConfig.process_status_analyzer (fun _ _ => none) (fun _ => none)
          ⟨["tsc", "--watch"], none, none, some V2.ProcessTypeConfig.TscWatch, none,
            none, none, none⟩).error_regex =
        some (V2.TSC_WATCH_ERROR_REGEX (fun _ => none)) ∧
      (V2.TSC_WATCH_ERROR_REGEX (fun _ => none)).source =
        " Found ([0-9]+) error[s]?\\. Watching for file changes\\." ∧
      (V2.ProcessConfig.process_status_analyzer (fun _ _ => none) (fun _ => none)
          ⟨["tsc", "--watch"], none, none, some V2.ProcessTypeConfig.TscWatch, none,
            none, none, none⟩).success_regex = none) :=
  ⟨rfl,
   (tsc_watch_preset_and_default (fun _ _ => none) (fun _ => none)).1
     ⟨["tsc", "--watch"], none, none, some V2.ProcessTypeConfig.TscWatch, none,
       none, none, none⟩ rfl⟩

/-- C8 (amended): `is_success` holds exactly for `Success` and `Exited{0}`;
`is_failure` exactly for `FailedToStart`, `Errors`, and `Exited` with a
nonzero exit code; `is_running` exactly for the statuses `Running`,
`Success`, and `Errors`; and a live instance exists exactly when the
internal state is the `Running` variant.  (The reported status's
`is_running` is not equivalent to a live instance existing — see the
counterexample.) -/
theorem status_predicate_characterization :
    (∀ st : V2.ProcessStatus,
      (st.is_success = true ↔ (∃ id, st = V2.ProcessStatus.Success id) ∨
        st = V2.ProcessStatus.Exited 0) ∧
      (st.is_failure = true ↔ st = V2.ProcessStatus.FailedToStart ∨
        (∃ c, st = V2.ProcessStatus.Errors c) ∨
        ∃ e, st = V2.ProcessStatus.Exited e ∧ e ≠ 0) ∧
      (st.is_running = true ↔ st = V2.ProcessStatus.Running ∨
        (∃ id, st = V2.ProcessStatus.Success id) ∨
        ∃ c, st = V2.ProcessStatus.Errors c)) ∧
    (∀ s : V1.ProcessInstanceState,
      (s.currentInstance).isSome = true ↔
        ∃ inst status, s = V1.ProcessInstanceState.Running inst status) := by
  constructor
  · intro st
    refine ⟨?_, ?_, ?_⟩ <;>
      cases st <;>
        simp [V2.ProcessStatus.is_success, V2.ProcessStatus.is_failure,
          V2.ProcessStatus.is_running]
  · intro s
    cases s <;> simp [V1.ProcessInstanceState.currentInstance]

/-- C8, counterexample to the claim as stated: a process in `PendingRestart`
reports the status `Running`, for which `is_running` holds, yet it holds no
live instance — so `is_running` does not imply an instance exists. -/
theorem pending_restart_running_without_instance :
    ((V1.ProcessInstanceState.PendingRestart).to_status).is_running = true ∧
    (V1.ProcessInstanceState.PendingRestart).currentInstance = none :=
  ⟨rfl, rfl⟩

/-- C2 (amended): `restart()` unconditionally replaces the state with
`PendingRestart` (`stop()` with `Stopped`, `mark_waiting_for_upstream()` with
`WaitingForUpstream`) in the same call, synchronously killing and discarding
the live instance when one exists (the second component of each pair); this
revision has no `Terminating` variant, so the next state is committed
without observing the killed instance's exit code. -/
theorem kill_commits_next_state_synchronously (p : V1.Process) :
    ((p.restart).1.instance_state = V1.ProcessInstanceState.PendingRestart ∧
      (p.restart).2 = p.instance_state.currentInstance) ∧
    ((p.stop).1.instance_state = V1.ProcessInstanceState.Stopped ∧
      (p.stop).2 = p.instance_state.currentInstance) ∧
    ((p.mark_waiting_for_upstream).1.instance_state =
        V1.ProcessInstanceState.WaitingForUpstream ∧
      (p.mark_waiting_for_upstream).2 = p.instance_state.currentInstance) :=
  ⟨⟨rfl, rfl⟩, ⟨rfl, rfl⟩, ⟨rfl, rfl⟩⟩

/-- C2, counterexample to the claim as stated: `restart()` on a process with
a live instance does not enter any terminating state carrying the intended
next state — the committed state is already `PendingRestart`, it retains no
instance, and the instance was killed and discarded in the same call. -/
theorem restart_discards_instance_synchronously :
    (runningProcess.restart).1.instance_state =
      V1.ProcessInstanceState.PendingRestart ∧
    ((runningProcess.restart).1.instance_state).currentInstance = none ∧
    (runningProcess.restart).2 = some instance0 :=
  ⟨rfl, rfl, rfl⟩

/-- C1 (amended): per tick, each upstream process emits at most one
downstream action (`synchronize_status` yields an `Option`, and the
supervisor's collection phase produces at most one entry per process); an
action is emitted exactly when the process is in the `Running` state and its
status channel yielded at least one status this tick — `Restart` when the
last drained status `is_success`, `WaitForUpstream` otherwise — regardless
of whether the drained status is value-equal to the previously observed
status (this revision's statuses carry no `SuccessId`). -/
theorem synchronize_status_emission (p : V1.Process)
    (drained : List V1.ProcessStatus) :
    (((p.synchronize_status drained).2).isSome = true ↔
      (∃ inst status, p.instance_state =
        V1.ProcessInstanceState.Running inst status) ∧ drained ≠ []) ∧
    (∀ a, (p.synchronize_status drained).2 = some a →
      ∃ last, drained.getLast? = some last ∧
        a = (if last.is_success then V1.DownstreamAction.Restart
             else V1.DownstreamAction.WaitForUpstream)) ∧
    (∀ inst status, p.instance_state =
        V1.ProcessInstanceState.Running inst status →
      (p.synchronize_status [status]).2 =
        some (if status.is_success then V1.DownstreamAction.Restart
              else V1.DownstreamAction.WaitForUpstream)) ∧
    (∀ (processes : List V1.Process) (drains : Nat → List V1.ProcessStatus),
      (V1.synchronize_all processes drains).2.length ≤ processes.length) := by
  refine ⟨?_, ?_, ?_, ?_⟩
  · cases hps : p.instance_state <;>
      simp [V1.Process.synchronize_status, hps]
    case Running inst status =>
      cases hl : drained.getLast?
      · simp [hl, List.getLast?_eq_none_iff.mp hl]
      · have : drained ≠ [] := by
          intro hnil
          rw [hnil] at hl
          simp at hl
        simp [hl, this]
  · intro a ha
    cases hps : p.instance_state <;>
      simp [V1.Process.synchronize_status, hps] at ha
    case Running inst status =>
      cases hl : drained.getLast? <;> simp [hl] at ha
      case some last => exact ⟨last, rfl, ha.symm⟩
  · intro inst status hps
    simp [V1.Process.synchronize_status, hps, List.getLast?]
  · intro processes drains
    unfold V1.synchronize_all
    calc (List.filterMap _ _).length ≤ (processes.enum.map _).length :=
          List.length_filterMap_le _ _
      _ = processes.length := by rw [List.length_map, List.enum_length]

/-- C1, counterexample to the claim as stated: a process whose held status is
`Running` drains a value-equal `Running` from its channel and an action is
still emitted (`WaitForUpstream`), although no genuine status change
occurred. -/
theorem equal_status_still_emits_action :
    runningProcess.instance_state =
      V1.ProcessInstanceState.Running instance0 V1.ProcessStatus.Running ∧
    (runningProcess.synchronize_status [V1.ProcessStatus.Running]).2 =
      some V1.DownstreamAction.WaitForUpstream :=
  ⟨rfl, rfl⟩

/-- `findIndexFrom pred s l = some i` locates the first element of `l`
satisfying `pred`: `i` is in range (shifted by `s`), the element there
satisfies `pred`, and nothing before it does. -/
theorem findIndexFrom_eq_some {α : Type} (pred : α → Bool) (l : List α) :
    ∀ s i : Nat, findIndexFrom pred s l = some i →
      s ≤ i ∧ i - s < l.length ∧
      (∃ a, l.get? (i - s) = some a ∧ pred a = true) ∧
      (∀ j a, j < i - s → l.get? j = some a → pred a = false) := by
  induction l with
  | nil => intro s i h; simp [findIndexFrom] at h
  | cons a l ih =>
    intro s i h
    simp only [findIndexFrom] at h
    cases hpa : pred a
    · rw [hpa] at h
      simp only [Bool.false_eq_true, if_false] at h
      obtain ⟨h1, h2, ⟨b, hb, hpb⟩, hmin⟩ := ih (s + 1) i h
      have hk : i - s = (i - (s + 1)) + 1 := by omega
      refine ⟨by omega, by simp; omega, ?_, ?_⟩
      · rw [hk]
        exact ⟨b, by simpa using hb, hpb⟩
      · intro j a' hj hg
        cases j with
        | zero =>
          simp only [List.get?_cons_zero, Option.some.injEq] at hg
          rw [← hg]
          exact hpa
        | succ k =>
          have hk2 : k < i - (s + 1) := by omega
          exact hmin k a' hk2 (by simpa using hg)
    · rw [hpa] at h
      simp only [if_true, Option.some.injEq] at h
      subst h
      refine ⟨le_refl s, by simp, ⟨a, by simp, hpa⟩, ?_⟩
      intro j a' hj
      omega

/-- `findIndexFrom pred s l = none` means no element of `l` satisfies
`pred`. -/
theorem findIndexFrom_eq_none {α : Type} (pred : α → Bool) (l : List α) :
    ∀ s : Nat, findIndexFrom pred s l = none → ∀ a ∈ l, pred a = false := by
  induction l with
  | nil => intro s _ a ha; simp at ha
  | cons a l ih =>
    intro s h b hb
    simp only [findIndexFrom] at h
    cases hpa : pred a
    · rw [hpa] at h
      simp only [Bool.false_eq_true, if_false] at h
      rcases List.mem_cons.mp hb with rfl | hbl
      · exact hpa
      · exact ih (s + 1) h b hbl
    · rw [hpa] at h
      simp at h

/-- `work_phase` only rewrites the process vector: mode, autofocus flag and
focus are untouched. -/
theorem work_phase_fields (ps : V1.Processes) (drains : Nat → List V1.ProcessStatus)
    (spawns : Nat → Except V1.ProcessError V1.ProcessInstance) :
    (ps.work_phase drains spawns).mode = ps.mode ∧
    (ps.work_phase drains spawns).autofocus_enabled = ps.autofocus_enabled ∧
    (ps.work_phase drains spawns).focused_process_index = ps.focused_process_index ∧
    (ps.work_phase drains spawns).should_autofocus = ps.should_autofocus :=
  ⟨rfl, rfl, rfl, rfl⟩

/-- `do_work` leaves the process vector as `work_phase` produced it. -/
theorem do_work_processes (ps : V1.Processes) (drains : Nat → List V1.ProcessStatus)
    (spawns : Nat → Except V1.ProcessError V1.ProcessInstance) :
    (ps.do_work drains spawns).processes = (ps.work_phase drains spawns).processes := by
  unfold V1.Processes.do_work
  cases h : (ps.work_phase drains spawns).should_autofocus <;> simp [h]

/-- The focus `do_work` commits: the autofocus target when autofocus applies,
the previous focus otherwise. -/
theorem do_work_focused (ps : V1.Processes) (drains : Nat → List V1.ProcessStatus)
    (spawns : Nat → Except V1.ProcessError V1.ProcessInstance) :
    (ps.do_work drains spawns).focused_process_index =
      if ps.should_autofocus then
        (findIndexFrom (fun p => p.status.is_failure) 0
            (ps.work_phase drains spawns).processes).getD ps.focused_process_index
      else ps.focused_process_index := by
  unfold V1.Processes.do_work
  cases h : (ps.work_phase drains spawns).should_autofocus
  · have h' : ps.should_autofocus = false :=
      ((work_phase_fields ps drains spawns).2.2.2).symm.trans h
    simp only [h, Bool.false_eq_true, if_false, h']
    exact (work_phase_fields ps drains spawns).2.2.1
  · have h' : ps.should_autofocus = true :=
      ((work_phase_fields ps drains spawns).2.2.2).symm.trans h
    simp only [h, if_true, h']
    rw [(work_phase_fields ps drains spawns).2.2.1]

/-- `do_work` keeps mode and the autofocus flag. -/
theorem do_work_fields (ps : V1.Processes) (drains : Nat → List V1.ProcessStatus)
    (spawns : Nat → Except V1.ProcessError V1.ProcessInstance) :
    (ps.do_work drains spawns).mode = ps.mode ∧
    (ps.do_work drains spawns).autofocus_enabled = ps.autofocus_enabled := by
  unfold V1.Processes.do_work
  cases h : (ps.work_phase drains spawns).should_autofocus <;>
      simp only [h, Bool.false_eq_true, if_false, if_true] <;>
    exact ⟨(work_phase_fields ps drains spawns).1, (work_phase_fields ps drains spawns).2.1⟩

/-- C5 (amended): autofocus applies only when the mode is `Main` and
autofocus is enabled; `do_work` preserves mode and the autofocus flag; when
autofocus does not apply the focus is unchanged; when it applies, the focus
is unchanged if no process is failing, and otherwise lands on a failing
process of minimal index (so focus, once on a failing process, stays on a
failing process, though it may jump to an earlier failing one).  A manual
focus move (`move_focus_up` / `move_focus_down`) does not change the
autofocus flag or the mode — in this revision autofocus is only disabled by
an explicit `disable_autofocus` / `toggle_autofocus`. -/
theorem autofocus_contract (ps : V1.Processes) (drains : Nat → List V1.ProcessStatus)
    (spawns : Nat → Except V1.ProcessError V1.ProcessInstance) :
    (ps.should_autofocus = true ↔
      ps.mode = V1.MintakaMode.Main ∧ ps.autofocus_enabled = true) ∧
    ((ps.do_work drains spawns).mode = ps.mode ∧
      (ps.do_work drains spawns).autofocus_enabled = ps.autofocus_enabled) ∧
    (ps.should_autofocus = false →
      (ps.do_work drains spawns).focused_process_index = ps.focused_process_index) ∧
    (ps.should_autofocus = true →
      ((∀ p ∈ (ps.do_work drains spawns).processes, p.status.is_failure = false) →
        (ps.do_work drains spawns).focused_process_index = ps.focused_process_index) ∧
      (∀ i p, ((ps.do_work drains spawns).processes).get? i = some p →
        p.status.is_failure = true →
        (ps.do_work drains spawns).focused_process_index ≤ i ∧
        ∃ q, ((ps.do_work drains spawns).processes).get?
            ((ps.do_work drains spawns).focused_process_index) = some q ∧
          q.status.is_failure = true)) ∧
    (∀ ps1, V1.Processes.move_focus_up ps = some ps1 →
      ps1.autofocus_enabled = ps.autofocus_enabled ∧ ps1.mode = ps.mode) ∧
    ((ps.move_focus_down).autofocus_enabled = ps.autofocus_enabled ∧
      (ps.move_focus_down).mode = ps.mode) := by
  refine ⟨?_, do_work_fields ps drains spawns, ?_, ?_, ?_, ?_⟩
  · unfold V1.Processes.should_autofocus
    cases hm : ps.mode <;> simp [hm]
  · intro h
    rw [do_work_focused, if_neg (by simp [h])]
  · intro h
    constructor
    · intro hall
      rw [do_work_processes] at hall
      rw [do_work_focused, if_pos h]
      cases hf : findIndexFrom (fun p => p.status.is_failure) 0
          (ps.work_phase drains spawns).processes
      · rfl
      case some k =>
        obtain ⟨_, _, ⟨b, hb, hpb⟩, _⟩ :=
          findIndexFrom_eq_some (fun p => p.status.is_failure)
            (ps.work_phase drains spawns).processes 0 k hf
        rw [Nat.sub_zero] at hb
        have hpb2 : b.status.is_failure = true := hpb
        rw [hall b (List.get?_mem hb)] at hpb2
        exact absurd hpb2 (by simp)
    · intro i p hget hfail
      rw [do_work_processes] at hget
      rw [do_work_processes, do_work_focused, if_pos h]
      cases hf : findIndexFrom (fun p => p.status.is_failure) 0
          (ps.work_phase drains spawns).processes
      · have hnone : p.status.is_failure = false :=
          findIndexFrom_eq_none (fun p => p.status.is_failure)
            (ps.work_phase drains spawns).processes 0 hf p (List.get?_mem hget)
        rw [hfail] at hnone
        exact absurd hnone (by simp)
      case some k =>
        obtain ⟨_, _, ⟨b, hb, hpb⟩, hmin⟩ :=
          findIndexFrom_eq_some (fun p => p.status.is_failure)
            (ps.work_phase drains spawns).processes 0 k hf
        rw [Nat.sub_zero] at hb
        have hki : k ≤ i := by
          by_contra hc
          have hik : i < k - 0 := by omega
          have hmin2 : p.status.is_failure = false := hmin i p hik hget
          rw [hfail] at hmin2
          exact absurd hmin2 (by simp)
        exact ⟨by simpa using hki, b, by simpa using hb, hpb⟩
  · intro ps1 h
    unfold V1.Processes.move_focus_up at h
    split at h
    · rw [Option.some_inj] at h
      subst h
      exact ⟨rfl, rfl⟩
    · split at h
      · exact absurd h (by simp)
      · rw [Option.some_inj] at h
        subst h
        exact ⟨rfl, rfl⟩
  · unfold V1.Processes.move_focus_down
    split <;> exact ⟨rfl, rfl⟩

/-- C5, counterexample to the claim as stated: a manual focus move leaves the
autofocus flag enabled — `move_focus_up` on a supervisor with autofocus
enabled yields a state with autofocus still enabled (nothing in
`src/src/processes.rs` disables autofocus on a manual move). -/
theorem manual_focus_move_keeps_autofocus :
    pairSupervisor.autofocus_enabled = true ∧
    (V1.Processes.move_focus_up pairSupervisor).map
      (fun ps => ps.autofocus_enabled) = some true :=
  ⟨rfl, rfl⟩

/-- Witness for `autofocus_contract`: on the concrete two-process supervisor,
after a tick in which the upstream succeeds, no process is failing and the
focus is unchanged. -/
theorem autofocus_contract_witness :
    pairSupervisor.should_autofocus = true ∧
    (pairSupervisor.do_work successDrain okSpawn).focused_process_index =
      pairSupervisor.focused_process_index :=
  ⟨rfl,
   ((autofocus_contract pairSupervisor successDrain okSpawn).2.2.2.1 rfl).1
     (by decide)⟩

/-- C4: the concrete supervisor has `serve` stopped and `build` running with
the edge `serve after build`; when `build`'s channel yields a `Success`,
`handle_status_updates` calls `restart()` on the stopped `serve`, moving it
to `PendingRestart`, and the same tick's `do_work` then starts it — the
stopped process is auto-restarted by an upstream status change, contradicting
the `Stopped` variant's own documentation ("will not be automatically
started") and the `stop_all` TODO in the source.  (`Process::do_work` itself
never moves `Stopped` to `PendingRestart`, as the last conjunct shows.) -/
theorem stopped_process_auto_restarted :
    stoppedProcess.instance_state = V1.ProcessInstanceState.Stopped ∧
    ((pairSupervisor.handle_status_updates successDrain).processes.get? 1).map
      (fun p => p.instance_state) = some V1.ProcessInstanceState.PendingRestart ∧
    ((pairSupervisor.do_work successDrain okSpawn).processes.get? 1).map
      (fun p => p.instance_state) =
      some (V1.ProcessInstanceState.Running instance0 V1.ProcessStatus.Running) ∧
    (∀ spawn, V1.Process.do_work stoppedProcess spawn = stoppedProcess) :=
  ⟨rfl, rfl, rfl, fun _ => rfl⟩

/-- `updateAt` preserves the length of the list. -/
theorem updateAt_length {α : Type} (f : α → α) :
    ∀ (l : List α) (n : Nat), (updateAt l n f).length = l.length
  | [], _ => rfl
  | _ :: l, 0 => rfl
  | a :: l, n + 1 => by simp [updateAt, updateAt_length f l n]

/-- Applying the collected downstream actions preserves the length of the
process vector. -/
theorem applyActions_length (after : List (String × Nat))
    (actions : List (String × V1.DownstreamAction)) :
    ∀ procs : List V1.Process,
      (V1.applyActions after actions procs).length = procs.length := by
  induction actions with
  | nil => intro procs; rfl
  | cons na rest ih =>
    intro procs
    unfold V1.applyActions
    rw [List.foldl_cons]
    have inner : ∀ (idxs : List Nat) (pr : List V1.Process),
        (idxs.foldl (fun pr idx =>
          updateAt pr idx (V1.applyDownstreamAction na.2)) pr).length = pr.length := by
      intro idxs
      induction idxs with
      | nil => intro pr; rfl
      | cons i rest2 ih2 =>
        intro pr
        rw [List.foldl_cons, ih2, updateAt_length]
    have := ih ((V1.getDownstream after na.1).foldl
      (fun pr idx => updateAt pr idx (V1.applyDownstreamAction na.2)) procs)
    unfold V1.applyActions at this
    rw [this, inner]

/-- Status synchronization preserves the length of the process vector. -/
theorem handle_status_updates_length (ps : V1.Processes)
    (drains : Nat → List V1.ProcessStatus) :
    (ps.handle_status_updates drains).processes.length = ps.processes.length := by
  unfold V1.Processes.handle_status_updates V1.synchronize_all
  rw [applyActions_length, List.length_map, List.length_map, List.enum_length]

/-- The first two phases of `do_work` preserve the length of the process
vector. -/
theorem work_phase_length (ps : V1.Processes) (drains : Nat → List V1.ProcessStatus)
    (spawns : Nat → Except V1.ProcessError V1.ProcessInstance) :
    (ps.work_phase drains spawns).processes.length = ps.processes.length := by
  unfold V1.Processes.work_phase
  rw [List.length_map, List.enum_length, handle_status_updates_length]

/-- C10: with an empty process vector (no process ever added) the focus and
rendering operations are not total — `move_focus_up` underflows
`processes.len() - 1` and `lines`, `restart_focused` and `send_input` index
`processes[focused_process_index]` out of bounds (all modelled as `none`) —
and the new state's focus invariant `focused < len` fails; with at least one
process and the focus in range, the focus stays in range under
`move_focus_up`, `move_focus_down` and `do_work`, and `lines` and
`restart_focused` succeed. -/
theorem empty_supervisor_partiality :
    (V1.Processes.move_focus_up V1.Processes.new = none ∧
      V1.Processes.lines V1.Processes.new = none ∧
      V1.Processes.restart_focused V1.Processes.new = none ∧
      V1.Processes.send_input V1.Processes.new = none ∧
      ¬(V1.Processes.new.focused_process_index <
          V1.Processes.new.processes.length)) ∧
    (∀ ps : V1.Processes, 0 < ps.processes.length →
      ps.focused_process_index < ps.processes.length →
      (∃ ps1, V1.Processes.move_focus_up ps = some ps1 ∧
        ps1.focused_process_index < ps1.processes.length) ∧
      (ps.move_focus_down).focused_process_index <
        (ps.move_focus_down).processes.length ∧
      (∀ (drains : Nat → List V1.ProcessStatus)
        (spawns : Nat → Except V1.ProcessError V1.ProcessInstance),
        (ps.do_work drains spawns).focused_process_index <
          (ps.do_work drains spawns).processes.length) ∧
      V1.Processes.lines ps ≠ none ∧
      V1.Processes.restart_focused ps ≠ none) := by
  refine ⟨⟨rfl, rfl, rfl, rfl, by decide⟩, ?_⟩
  intro ps h0 hf
  refine ⟨?_, ?_, ?_, ?_, ?_⟩
  · unfold V1.Processes.move_focus_up
    split
    · exact ⟨_, rfl, by simp; omega⟩
    · split
      · omega
      · next n heq => exact ⟨_, rfl, by simp [heq]⟩
  · unfold V1.Processes.move_focus_down
    split
    · next hlt => simpa using hlt
    · simpa using h0
  · intro drains spawns
    rw [do_work_focused, do_work_processes, work_phase_length]
    cases hsa : ps.should_autofocus
    · simpa using hf
    · simp only [if_true]
      cases hfi : findIndexFrom (fun p => p.status.is_failure) 0
          (ps.work_phase drains spawns).processes
      · simpa using hf
      case some k =>
        obtain ⟨_, hk, _, _⟩ :=
          findIndexFrom_eq_some (fun p => p.status.is_failure)
            (ps.work_phase drains spawns).processes 0 k hfi
        rw [work_phase_length] at hk
        simpa using hk
  · unfold V1.Processes.lines
    cases hs : ps.snapshot
    · have hg : ps.processes.get? ps.focused_process_index ≠ none := by
        rw [Ne, List.get?_eq_none]
        omega
      simp only []
      cases hgv : ps.processes.get? ps.focused_process_index
      · exact absurd hgv hg
      · simp [hgv]
    · simp
  · unfold V1.Processes.restart_focused
    rw [Ne, Option.map_eq_none', List.get?_eq_none]
    omega

/-- Witness for `synchronize_status_emission`: the running process drains a
status value-equal to its current one and still emits an action. -/
theorem synchronize_status_emission_witness :
    runningProcess.instance_state =
      V1.ProcessInstanceState.Running instance0 V1.ProcessStatus.Running ∧
    (runningProcess.synchronize_status [V1.ProcessStatus.Running]).2 =
      some (if (V1.ProcessStatus.Running).is_success then
              V1.DownstreamAction.Restart
            else V1.DownstreamAction.WaitForUpstream) :=
  ⟨rfl,
   (synchronize_status_emission runningProcess [V1.ProcessStatus.Running]).2.2.1
     instance0 V1.ProcessStatus.Running rfl⟩

/-- Witness for `empty_supervisor_partiality`: with one process present and
focus 0, `lines` succeeds. -/
theorem empty_supervisor_partiality_witness :
    0 < singletonSupervisor.processes.length ∧
    singletonSupervisor.focused_process_index <
      singletonSupervisor.processes.length ∧
    V1.Processes.lines singletonSupervisor ≠ none :=
  ⟨by decide, by decide,
   (empty_supervisor_partiality.2 singletonSupervisor (by decide)
       (by decide)).2.2.2.1⟩
